import Mathlib

/-!
Shallow embedding of the scrape-and-download core of The-Blackbook-Archive:
the session HTTP client (zlibrary/client.go), the search extractor
(`SearchZLibrary`), the detail extractor post-processing of `GetBookDetails`,
and the streaming downloader (`startActualDownload`, download/progress.go).

HTML fetching, goquery selection and the Go standard library are modelled
at their interface boundary: theorems quantify over oracle functions for
`url.Parse` / `(*url.URL).Parse` resolution and over the abstract response a
fetch would produce, while every piece of control flow, string formatting and
state update written in the repository itself is embedded directly.

String helpers that the Go standard library provides (`strings.TrimSpace`,
`strings.ToLower`, `strings.Contains`, `url.QueryEscape`, `filepath.Ext`)
are modelled as executable functions over the character list of a `String`,
faithful to their documented behaviour on the ASCII inputs this program
handles.
-/

namespace Blackbook

/-- Models Go `strings.TrimSpace`: drops leading and trailing whitespace. -/
def trimSpace (s : String) : String :=
  String.mk (((s.data.dropWhile Char.isWhitespace).reverse.dropWhile
    Char.isWhitespace).reverse)

/-- Models Go `strings.ToLower` (ASCII range, which is all this program feeds it). -/
def lowerStr (s : String) : String := String.mk (s.data.map Char.toLower)

/-- Pattern `p` occurs at the head of the list. -/
def listHasPre : List Char → List Char → Bool
  | [], _ => true
  | _ :: _, [] => false
  | p :: ps, c :: cs => p == c && listHasPre ps cs

/-- Pattern occurs somewhere in the list. -/
def listHasSub (pat : List Char) : List Char → Bool
  | [] => listHasPre pat []
  | c :: cs => listHasPre pat (c :: cs) || listHasSub pat cs

/-- Models Go `strings.Contains s pat`. -/
def containsSub (s pat : String) : Bool := listHasSub pat.data s.data

/-- From utils (part_000): `PtrStr` returns nil for the empty string, else a
pointer to the string; nil pointers are modelled as `none`. -/
def PtrStr (s : String) : Option String := if s = "" then none else some s

/-- From utils (part_000): `MinInt` returns the smaller of two integers. -/
def MinInt (a b : Int) : Int := if a < b then a else b

/-! ## zlibrary data structures (src/unnamed/part_001) -/

/-- `BookSearchResult`: a single book found in search results. -/
structure BookSearchResult where
  Title : String
  URL : String
  BookID : Option String
  deriving DecidableEq

/-- `Category`: a book category. -/
structure Category where
  Name : String
  URL : Option String
  deriving DecidableEq

/-- `DownloadFormat`: an available download format and its URL. -/
structure DownloadFormat where
  Format : String
  URL : String
  deriving DecidableEq

/-- `BookDetails`: detailed information about a specific book. Go nil
pointers are modelled as `none`. -/
structure BookDetails where
  URL : String
  BookID : Option String := none
  Title : Option String := none
  Author : Option String := none
  AuthorURL : Option String := none
  Description : Option String := none
  RatingInterest : Option String := none
  RatingQuality : Option String := none
  Categories : List Category := []
  ContentType : Option String := none
  Volume : Option String := none
  Year : Option String := none
  Publisher : Option String := none
  Language : Option String := none
  ISBN10 : Option String := none
  ISBN13 : Option String := none
  Series : Option String := none
  FileFormat : Option String := none
  FileSize : Option String := none
  IpfsCID : Option String := none
  IpfsCIDBlake2b : Option String := none
  CoverURL : Option String := none
  DownloadURL : Option String := none
  OtherFormats : List DownloadFormat := []
  deriving DecidableEq

/-! ## Session HTTP client (src/zlibrary/client.go) -/

/-- `BaseURL` constant. -/
def BaseURL : String := "https://z-library.sk"

/-- `SearchPath` constant. -/
def SearchPath : String := "/s/"

/-- The part of an `*http.Response` the client layer inspects: the status
code and the resolved final URL `resp.Request.URL` (a `nil` request or URL is
`none`). -/
structure HttpResponse where
  StatusCode : Nat
  requestURL : Option String
  deriving DecidableEq

/-- The process-wide mutable session state of client.go: the rolling
`lastReferrer` string. -/
structure ClientState where
  lastReferrer : String
  deriving DecidableEq

/-- The state established by `init()` in client.go: `lastReferrer` is set to
`url.Parse(BaseURL).String()`, which for the constant base URL is the base
URL itself. -/
def initClientState : ClientState := ⟨BaseURL⟩

/-- The `Referer` header `MakeRequest` attaches to an outgoing request:
present with the current `lastReferrer` unless that is empty
(client.go lines 55-57). -/
def refererHeader (st : ClientState) : Option String :=
  if st.lastReferrer = "" then none else some st.lastReferrer

/-- The resolved final URL after redirects as computed by `MakeRequest`
(client.go lines 66-69): `resp.Request.URL.String()` when available,
defaulting to the original URL string. -/
def finalURLOf (urlStr : String) (resp : HttpResponse) : String :=
  resp.requestURL.getD urlStr

/-- The `lastReferrer` update performed by `MakeRequest` (client.go lines
60-78). `result` is `none` when `httpClient.Do` failed (the function returns
before any update); on a response with status in [200,400) the referrer
becomes the resolved final URL, otherwise it is left untouched. -/
def MakeRequest (st : ClientState) (urlStr : String) (result : Option HttpResponse) :
    ClientState :=
  match result with
  | none => st
  | some resp =>
    if 200 ≤ resp.StatusCode ∧ resp.StatusCode < 400 then
      { st with lastReferrer := finalURLOf urlStr resp }
    else st

/-- A whole session: folds `MakeRequest` over a list of (requested URL,
outcome) steps, collecting the `Referer` header each request was sent with. -/
def runSession (st : ClientState) :
    List (String × Option HttpResponse) → ClientState × List (Option String)
  | [] => (st, [])
  | (u, res) :: rest =>
    let hdr := refererHeader st
    let st1 := MakeRequest st u res
    let (stf, hdrs) := runSession st1 rest
    (stf, hdr :: hdrs)

/-! ## Search URL construction (SearchZLibrary, ui_helpers.go lines 568-578)

The Go code parses `BaseURL`, appends `SearchPath` with `JoinPath`, sets the
single query parameter `q` and serialises with `Values.Encode`, which
percent-escapes with `url.QueryEscape` (space becomes `+`, unreserved ASCII
is kept, every other byte of the UTF-8 encoding becomes `%XX` with uppercase
hex). The functions below model that serialisation. -/

/-- Characters `url.QueryEscape` leaves unescaped: alphanumerics and
`-` `_` `.` `~`. -/
def isQueryUnreserved (c : Char) : Bool :=
  c.isAlphanum || c = '-' || c = '_' || c = '.' || c = '~'

/-- Uppercase hexadecimal digit for a value below 16. -/
def hexDigitUpper (n : Nat) : Char :=
  if n < 10 then Char.ofNat (48 + n) else Char.ofNat (55 + n)

/-- UTF-8 bytes of one character (standard encoding). -/
def utf8BytesOfChar (c : Char) : List Nat :=
  let n := c.toNat
  if n < 128 then [n]
  else if n < 2048 then [192 + n / 64, 128 + n % 64]
  else if n < 65536 then [224 + n / 4096, 128 + (n / 64) % 64, 128 + n % 64]
  else [240 + n / 262144, 128 + (n / 4096) % 64, 128 + (n / 64) % 64, 128 + n % 64]

/-- Percent-escape of one byte. -/
def escByte (b : Nat) : List Char := ['%', hexDigitUpper (b / 16), hexDigitUpper (b % 16)]

/-- Escape of one character under `url.QueryEscape`. -/
def queryEscapeChar (c : Char) : List Char :=
  if c = ' ' then ['+']
  else if isQueryUnreserved c then [c]
  else (utf8BytesOfChar c).flatMap escByte

/-- Models Go `url.QueryEscape`. -/
def queryEscape (s : String) : String := String.mk (s.data.flatMap queryEscapeChar)

/-- The search URL `SearchZLibrary` constructs for a query (ui_helpers.go
lines 568-578): base joined with the search path, with `q.Encode()` of the
single parameter `q=query` as the raw query. For the constant base URL,
`JoinPath` is plain concatenation and `Encode` of one key is
`"q=" ++ queryEscape query`. -/
def buildSearchURL (query : String) : String :=
  BaseURL ++ SearchPath ++ "?" ++ ("q=" ++ queryEscape query)

/-! ## Search result card extraction (SearchZLibrary, ui_helpers.go lines 619-704) -/

/-- The `z-bookcard` element of one result card, as the selectors see it:
its `href` attribute (`none` when absent), its `id` attribute (`Attr` yields
`""` when absent) and the text of its `div[slot='title']` child (`none` when
no such element exists). -/
structure ZCardModel where
  href : Option String
  id : String
  titleSlot : Option String
  deriving DecidableEq

/-- The `h3[itemprop='name'] a` direct title link of a card: its `href`
attribute and its text. -/
structure DirectLinkModel where
  href : Option String
  text : String
  deriving DecidableEq

/-- One `div.book-item.resItemBoxBooks` result card: the optional
`z-bookcard` child and the optional direct title link. -/
structure CardModel where
  zcard : Option ZCardModel
  direct : Option DirectLinkModel
  deriving DecidableEq

/-- The base string used for resolving relative links: the parsed final URL,
or on a parse error the `BaseURL` fallback (ui_helpers.go lines 639-643,
678-682). -/
def baseStrOf (baseE : Except String String) : String :=
  match baseE with
  | .ok b => b
  | .error _ => BaseURL

/-- The soft parse error recorded when `url.Parse(finalURLStr)` fails for a
card (ui_helpers.go lines 639-643, 678-682); empty when it succeeds. -/
def baseErrList (finalURL : String) (baseE : Except String String) (i : Nat) :
    List String :=
  match baseE with
  | .ok _ => []
  | .error e =>
    ["Item " ++ toString i ++ ": Error parsing final search URL '" ++ finalURL ++
      "' as base: " ++ e]

/-- Extraction of one result card (the body of the `Each` callback,
ui_helpers.go lines 621-696). `baseE` is the outcome of parsing the final
search URL; `resolve` is the oracle for `base.Parse(relativeURL)`, taking
the base string and the relative URL and returning the resolved absolute URL
or an error. Returns the result extracted from the card (if any) and the
soft parse errors recorded for it. -/
def parseCard (finalURL : String) (baseE : Except String String)
    (resolve : String → String → Except String String) (i : Nat) (c : CardModel) :
    Option BookSearchResult × List String :=
  match c.zcard with
  | none =>
    match c.direct with
    | none =>
      (none, ["Item " ++ toString i ++
        ": Skipping, could not find z-bookcard or direct title link."])
    | some dl =>
      match dl.href with
      | none =>
        (none, ["Item " ++ toString i ++ ": Skipping, found direct link but missing href."])
      | some h =>
        if h = "" then
          (none, ["Item " ++ toString i ++ ": Skipping, found direct link but missing href."])
        else
          let title := trimSpace dl.text
          let errs0 := baseErrList finalURL baseE i
          let b := baseStrOf baseE
          match resolve b h with
          | .error e =>
            (none, errs0 ++ ["Item " ++ toString i ++ ": Error resolving book URL '" ++
              h ++ "' against base '" ++ b ++ "': " ++ e])
          | .ok u => (some ⟨title, u, PtrStr ""⟩, errs0)
  | some zc =>
    match zc.href with
    | none =>
      (none, ["Item " ++ toString i ++ ": Skipping book card, missing href attribute."])
    | some h =>
      if h = "" then
        (none, ["Item " ++ toString i ++ ": Skipping book card, missing href attribute."])
      else
        let title :=
          match zc.titleSlot with
          | some t => trimSpace t
          | none =>
            match c.direct with
            | some dl => trimSpace dl.text
            | none => "Title N/A"
        let errs0 := baseErrList finalURL baseE i
        let b := baseStrOf baseE
        match resolve b h with
        | .error e =>
          (none, errs0 ++ ["Item " ++ toString i ++ ": Error resolving book URL '" ++
            h ++ "' against base '" ++ b ++ "': " ++ e])
        | .ok u => (some ⟨title, u, PtrStr zc.id⟩, errs0)

/-- Folds `parseCard` over the cards of a results page in page order,
starting at index `i`, appending results and soft errors exactly as the
`Each` loop does. -/
def parseCards (finalURL : String) (baseE : Except String String)
    (resolve : String → String → Except String String) (i : Nat) :
    List CardModel → List BookSearchResult × List String
  | [] => ([], [])
  | c :: cs =>
    let (r, es) := parseCard finalURL baseE resolve i c
    let (rs, ess) := parseCards finalURL baseE resolve (i + 1) cs
    (r.toList ++ rs, es ++ ess)

/-- The aggregate error built from the soft parse errors (ui_helpers.go
lines 699-704): `nil` when there were none, otherwise an error stating their
count and joining the individual messages. -/
def searchAggError (errs : List String) : Option String :=
  if errs = [] then none
  else
    some ("encountered " ++ toString errs.length ++
      " errors during result parsing:\n- " ++ String.intercalate "\n- " errs)

/-- The part of the search page `*http.Response` that `SearchZLibrary`
inspects: status code, Go `resp.Status` text, the resolved final URL
(`none` when `resp.Request`/its URL is nil), the body bytes read on the
error path, and the outcome of the goquery HTML parse of the body. -/
structure SearchResponse where
  StatusCode : Nat
  Status : String
  requestURL : Option String
  body : String
  cards : Except String (List CardModel)

/-- The observable outcome of one `SearchZLibrary` call: the results, the
final URL returned, the error (`none` for nil) and the list of URLs for
which an HTTP request was issued through `MakeRequest`. -/
structure SearchOutcome where
  results : List BookSearchResult
  finalURL : String
  error : Option String
  requests : List String
  deriving DecidableEq

/-- `SearchZLibrary` (ui_helpers.go lines 563-705). `urlp` is the oracle for
`url.Parse` (returning the parsed URL rendered back to a string), `fetch`
the oracle for `MakeRequest` on the search URL, `resolve` the oracle for
resolving a relative link against a base. Every branch, error message and
returned value mirrors the source. -/
def SearchZLibrary (query : String) (urlp : String → Except String String)
    (fetch : String → Except String SearchResponse)
    (resolve : String → String → Except String String) : SearchOutcome :=
  if query = "" then ⟨[], "", some "search query cannot be empty", []⟩
  else
    match urlp BaseURL with
    | .error e => ⟨[], "", some ("failed to parse base URL: " ++ e), []⟩
    | .ok _ =>
      let fetchURL := buildSearchURL query
      match fetch fetchURL with
      | .error e => ⟨[], fetchURL, some ("search request failed: " ++ e), [fetchURL]⟩
      | .ok resp =>
        let finalURL := resp.requestURL.getD fetchURL
        if resp.StatusCode ≠ 200 then
          ⟨[], finalURL,
            some ("search failed with status " ++ resp.Status ++ "\nURL: " ++ finalURL ++
              "\nResponse: " ++ resp.body), [fetchURL]⟩
        else
          match resp.cards with
          | .error e =>
            ⟨[], finalURL,
              some ("failed to parse search results HTML from " ++ finalURL ++ ": " ++ e),
              [fetchURL]⟩
          | .ok cards =>
            let (results, perrs) := parseCards finalURL (urlp finalURL) resolve 0 cards
            ⟨results, finalURL, searchAggError perrs, [fetchURL]⟩

/-! ## Detail extractor post-processing (GetBookDetails, ui_helpers.go lines 1037-1070) -/

/-- Models the `Path` component of `url.Parse`: the fragment (after the
first `#`) and the raw query (after the first `?`) are cut off, and for an
absolute URL the path starts at the first `/` after the `://` authority.
`url.Parse` only fails on malformed input such as ASCII control characters,
which is modelled by returning `none` for those. Percent-decoding of the
path, which Go also performs, is not modelled; the URLs this program feeds
in contain no escapes in the path. -/
def goURLPath (s : String) : Option String :=
  if s.data.any (fun c => c.toNat < 32) then none
  else
    let noFrag := s.data.takeWhile (· ≠ '#')
    let noQuery := noFrag.takeWhile (· ≠ '?')
    if listHasSub "://".data noQuery then
      some (String.mk (afterAuthority noQuery))
    else
      some (String.mk noQuery)
where
  /-- Drops the `scheme://host` part: everything up to and excluding the
  first `/` that follows the `://` separator. -/
  afterAuthority (l : List Char) : List Char :=
    match l with
    | ':' :: '/' :: '/' :: rest => rest.dropWhile (· ≠ '/')
    | _ :: rest => afterAuthority rest
    | [] => []

/-- Scans a reversed character list for the extension of the final path
element: `some` of the suffix from the last dot when one occurs before the
last `/`, `none` otherwise. -/
def extScan : List Char → List Char → Option (List Char)
  | _, [] => none
  | acc, c :: rest =>
    if c = '/' then none
    else if c = '.' then some ('.' :: acc)
    else extScan (c :: acc) rest

/-- Models Go `filepath.Ext`: the suffix of the path beginning at the final
dot in the final element, empty when there is no dot there. -/
def filepathExt (p : String) : String :=
  match extScan [] p.data.reverse with
  | none => ""
  | some l => String.mk l

/-- Models `strings.TrimPrefix s "."`: drops one leading dot. -/
def trimDot (s : String) : String :=
  match s.data with
  | '.' :: rest => String.mk rest
  | _ => s

/-- First block of the `--- Final Checks ---` post-processing of
`GetBookDetails` (ui_helpers.go lines 1038-1050): when no primary download
URL was found but alternates exist and the first one is not the conversion
sentinel, it is promoted to primary and removed from the alternates list,
also supplying the file format when that was still nil. -/
def promoteFirstAlternate (d : BookDetails) : BookDetails :=
  match d.DownloadURL, d.OtherFormats with
  | none, firstFormat :: rest =>
    if firstFormat.URL ≠ "CONVERSION_NEEDED" then
      { d with DownloadURL := PtrStr firstFormat.URL,
               FileFormat :=
                 if d.FileFormat = none then PtrStr firstFormat.Format else d.FileFormat,
               OtherFormats := rest }
    else d
  | _, _ => d

/-- Second block of the final checks (ui_helpers.go lines 1051-1070): when a
primary download URL is present, non-empty and not the conversion sentinel
but the format is still unknown, the format is guessed from the URL path
extension when that extension has a plausible length (strictly between 1
and 6 characters); otherwise only a warning is logged. -/
def inferFormatFromURL (d1 : BookDetails) : BookDetails :=
  match d1.DownloadURL with
  | some u =>
    if u ≠ "" ∧ u ≠ "CONVERSION_NEEDED" then
      if d1.FileFormat = none ∨ d1.FileFormat = some "" then
        match goURLPath u with
        | some p =>
          let ext := trimDot (filepathExt p)
          if 1 < ext.length ∧ ext.length < 6 then { d1 with FileFormat := PtrStr ext }
          else d1
        | none => d1
      else d1
    else d1
  | none => d1

/-- The `--- Final Checks ---` post-processing at the end of
`GetBookDetails` (ui_helpers.go lines 1037-1070), applied to the
`BookDetails` record produced by the extraction passes: the promotion of
the first alternate format, then the extension-based format inference. -/
def GetBookDetailsFinalChecks (d : BookDetails) : BookDetails :=
  inferFormatFromURL (promoteFirstAlternate d)

/-! ## Streaming downloader (startActualDownload, ui_handlers.go lines 222-324,
and download/progress.go) -/

/-- `DownloadProgress` (progress.go): cumulative bytes written, total
expected bytes (-1 for unknown), and the error carried by the event. -/
structure DownloadProgress where
  Current : Int
  Total : Int
  Err : Option String
  deriving DecidableEq

/-- The part of the download `*http.Response` that `startActualDownload`
inspects: status code and text, resolved final URL, `Content-Type` header,
the value `strconv.ParseInt` produces for `Content-Length` (0 when the
header is missing or malformed, since the error is discarded), the
successive body chunk writes the copy loop will perform (bytes written and
write error of each), the read error terminating the body (`none` for a
clean EOF), and the body bytes read on the error paths. -/
structure DLResponse where
  StatusCode : Nat
  Status : String
  requestURL : Option String
  ContentType : String
  ContentLengthParsed : Int
  chunks : List (Nat × Option String)
  readErr : Option String
  body : String

/-- The outcome of the `zlib.MakeRequest(downloadURL)` call in
`startActualDownload`: a transport failure with its message, or a response. -/
inductive FetchResult where
  | fail (e : String)
  | ok (resp : DLResponse)

/-- The resolved final URL the downloader reports in its error messages
(ui_handlers.go lines 245-251): the response request URL when present,
defaulting to the requested download URL. On a transport failure there is
no response and the requested URL stands. -/
def dlFinalURL (downloadURL : String) : FetchResult → String
  | .fail _ => downloadURL
  | .ok r => r.requestURL.getD downloadURL

/-- The total size `startActualDownload` derives from `Content-Length`
(ui_handlers.go lines 278-282): the parsed value, with a missing, malformed
or non-positive value normalised to -1 ("unknown"). -/
def dlTotalSize (resp : DLResponse) : Int :=
  if resp.ContentLengthParsed ≤ 0 then (-1 : Int) else resp.ContentLengthParsed

/-- The copy loop `io.Copy(writer, resp.Body)` with the
`download.ProgressWriter` (progress.go lines 32-51): each chunk write adds
its byte count to `Current` and sends a progress event carrying the
cumulative count, the total and the write error; the send is a non-blocking
`select` with a `default` case, so an event is delivered only when the
channel has room, which `mask` models (a missing or `false` entry drops the
event). The copy stops at the first write error. Returns the final
cumulative count, the write error (if any) and the delivered events. -/
def runCopy (total : Int) : Int → List Bool → List (Nat × Option String) →
    Int × Option String × List DownloadProgress
  | cur, _, [] => (cur, none, [])
  | cur, mask, (n, werr) :: rest =>
    let cur1 := cur + n
    let sent := mask.headD false
    let evs0 : List DownloadProgress := if sent then [⟨cur1, total, werr⟩] else []
    match werr with
    | some e => (cur1, some e, evs0)
    | none =>
      let (c, er, evs) := runCopy total cur1 mask.tail rest
      (c, er, evs0 ++ evs)

/-- The total bytes the copy loop writes: the sum of the chunk byte counts
up to and including the first failing write. -/
def writtenCount : List (Nat × Option String) → Int
  | [] => 0
  | (n, werr) :: rest =>
    match werr with
    | some _ => (n : Int)
    | none => (n : Int) + writtenCount rest

/-- The producer goroutine of `startActualDownload` (ui_handlers.go lines
232-324). `createRes` is the outcome of `os.Create(filePath)`. Returns the
sequence of `DownloadProgress` events delivered on the channel before it is
closed, whether the destination file was created, and whether its removal
was attempted. The terminal sends in the source are plain blocking channel
sends, so they are always delivered; only the per-chunk sends of the
`ProgressWriter` are best-effort (see `runCopy`). -/
def startActualDownload (downloadURL filePath : String) (fr : FetchResult)
    (createRes : Except String Unit) (mask : List Bool) :
    List DownloadProgress × Bool × Bool :=
  match fr with
  | .fail e =>
    ([⟨0, 0, some ("download request failed for " ++ downloadURL ++ ": " ++ e)⟩],
      false, false)
  | .ok resp =>
    let finalURL := resp.requestURL.getD downloadURL
    if containsSub (lowerStr resp.ContentType) "text/html" then
      ([⟨0, 0, some ("download failed: Received an HTML page (URL: " ++ finalURL ++
        "). Login/Captcha/Limit likely required.")⟩], false, false)
    else if resp.StatusCode ≠ 200 then
      ([⟨0, 0, some ("download failed with status " ++ resp.Status ++ " (URL: " ++
        finalURL ++ "): " ++ resp.body)⟩], false, false)
    else
      let totalSize := dlTotalSize resp
      let initEv : DownloadProgress := ⟨0, totalSize, none⟩
      match createRes with
      | .error e =>
        ([initEv, ⟨0, 0, some ("failed to create output file '" ++ filePath ++ "': " ++ e)⟩],
          false, false)
      | .ok _ =>
        let (cur, werr, copyEvs) := runCopy totalSize 0 mask resp.chunks
        let copyErr := match werr with | some e => some e | none => resp.readErr
        match copyErr with
        | some e =>
          (initEv :: copyEvs ++ [⟨cur, totalSize, some ("download interrupted: " ++ e)⟩],
            true, true)
        | none => (initEv :: copyEvs ++ [⟨cur, totalSize, none⟩], true, false)

/-! ## Concrete oracles used by witnesses and counterexamples -/

/-- An `url.Parse` oracle that always succeeds (the behaviour on every URL
this program actually constructs). -/
def urlParseOK : String → Except String String := fun s => .ok s

/-- A `MakeRequest` oracle modelling a transport failure. -/
def fetchFail : String → Except String SearchResponse := fun _ => .error "connection refused"

/-- A link-resolution oracle that resolves a relative URL by prefixing the
base. -/
def resolveConcat : String → String → Except String String := fun b r => .ok (b ++ r)

/-! ## Theorems -/

/-- Go `net/http` guarantees that a response handed back by `Client.Do` has
a non-nil `resp.Request.URL` holding an absolute (hence non-empty) URL, and
`MakeRequest` is only reached with a non-empty `urlStr` by its callers. This
predicate states that environmental fact for one session step: if the step
produced a response whose status would update the referrer, the resolved
final URL recorded for it is non-empty. -/
def stepFinalURLNonEmpty (s : String × Option HttpResponse) : Bool :=
  match s.2 with
  | none => true
  | some r =>
    if 200 ≤ r.StatusCode ∧ r.StatusCode < 400 then
      (r.requestURL.getD s.1) != ""
    else true

/-- Helper: one unfolding step of `runSession`. -/
theorem runSession_cons (st : ClientState) (u : String) (res : Option HttpResponse)
    (rest : List (String × Option HttpResponse)) :
    runSession st ((u, res) :: rest) =
      ((runSession (MakeRequest st u res) rest).1,
        refererHeader st :: (runSession (MakeRequest st u res) rest).2) := by
  simp [runSession]

/-- Helper: a session started in a state with a non-empty `lastReferrer`
keeps it non-empty and attaches a `Referer` header to every request,
provided every referrer-updating response resolves to a non-empty URL. -/
theorem runSession_referer_invariant (steps : List (String × Option HttpResponse)) :
    ∀ st : ClientState, st.lastReferrer ≠ "" →
    steps.all stepFinalURLNonEmpty = true →
    (runSession st steps).1.lastReferrer ≠ "" ∧
      ∀ h ∈ (runSession st steps).2, h.isSome := by
  induction steps with
  | nil =>
    intro st hne _
    simp [runSession, hne]
  | cons s rest ih =>
    intro st hne hall
    obtain ⟨u, res⟩ := s
    simp only [List.all_cons, Bool.and_eq_true] at hall
    have hstep : (MakeRequest st u res).lastReferrer ≠ "" := by
      cases res with
      | none => simpa [MakeRequest] using hne
      | some r =>
        by_cases hc : 200 ≤ r.StatusCode ∧ r.StatusCode < 400
        · have := hall.1
          simp only [stepFinalURLNonEmpty, hc, if_true, bne_iff_ne, ne_eq] at this
          simpa [MakeRequest, hc, finalURLOf] using this
        · simpa [MakeRequest, hc] using hne
    have ihr := ih (MakeRequest st u res) hstep hall.2
    rw [runSession_cons]
    refine ⟨ihr.1, ?_⟩
    intro h hmem
    rcases List.mem_cons.mp hmem with hmem | hmem
    · subst hmem
      simp [refererHeader, hne]
    · exact ihr.2 h hmem

/-- C10: `lastReferrer` starts as the base site URL and, because every
referrer update writes the (non-empty) resolved final URL of a completed
response, it is never empty; consequently every request the session client
issues carries a `Referer` header, and the omit-when-empty branch of
`MakeRequest` never fires. -/
theorem lastReferrer_never_empty (steps : List (String × Option HttpResponse))
    (H : steps.all stepFinalURLNonEmpty = true) :
    initClientState.lastReferrer = BaseURL ∧
    (runSession initClientState steps).1.lastReferrer ≠ "" ∧
    ∀ h ∈ (runSession initClientState steps).2, h.isSome := by
  have hne : initClientState.lastReferrer ≠ "" := by
    simp [initClientState, BaseURL]
  exact ⟨rfl, (runSession_referer_invariant steps initClientState hne H).1,
    (runSession_referer_invariant steps initClientState hne H).2⟩

/-- Witness for C10 on a concrete three-step session: a successful redirect,
a transport failure, and a 500 response. -/
theorem lastReferrer_never_empty_witness :
    ([("https://z-library.sk/s/?q=a", some ⟨200, some "https://z-library.sk/s/?q=a"⟩),
      ("https://z-library.sk/img.png", (none : Option HttpResponse)),
      ("https://z-library.sk/dl/1", some ⟨500, some "https://z-library.sk/err"⟩)].all
        stepFinalURLNonEmpty = true) ∧
    (initClientState.lastReferrer = BaseURL ∧
      (runSession initClientState
        [("https://z-library.sk/s/?q=a", some ⟨200, some "https://z-library.sk/s/?q=a"⟩),
         ("https://z-library.sk/img.png", none),
         ("https://z-library.sk/dl/1", some ⟨500, some "https://z-library.sk/err"⟩)]).1.lastReferrer ≠ "" ∧
      ∀ h ∈ (runSession initClientState
        [("https://z-library.sk/s/?q=a", some ⟨200, some "https://z-library.sk/s/?q=a"⟩),
         ("https://z-library.sk/img.png", none),
         ("https://z-library.sk/dl/1", some ⟨500, some "https://z-library.sk/err"⟩)]).2, h.isSome) :=
  ⟨by decide, lastReferrer_never_empty _ (by decide)⟩

/-- C6: when `MakeRequest` obtains a response, a status in [200,400) sets
`lastReferrer` to the resolved final (post-redirect) URL of the response,
while a status of 400 or greater leaves the whole client state, and in
particular `lastReferrer`, exactly as it was. -/
theorem makeRequest_referrer_update (st : ClientState) (urlStr : String)
    (resp : HttpResponse) :
    (200 ≤ resp.StatusCode ∧ resp.StatusCode < 400 →
      (MakeRequest st urlStr (some resp)).lastReferrer = finalURLOf urlStr resp) ∧
    (400 ≤ resp.StatusCode → MakeRequest st urlStr (some resp) = st) := by
  constructor
  · intro h
    simp [MakeRequest, h]
  · intro h
    have hnot : ¬(200 ≤ resp.StatusCode ∧ resp.StatusCode < 400) := by omega
    simp [MakeRequest, hnot]

/-- Witness for C6 at a 200 response and at a 404 response. -/
theorem makeRequest_referrer_update_witness :
    ((200 ≤ 200 ∧ 200 < 400) ∧
      (MakeRequest ⟨"https://z-library.sk"⟩ "https://z-library.sk/s/?q=a"
        (some ⟨200, some "https://z-library.sk/s/?q=a"⟩)).lastReferrer =
        finalURLOf "https://z-library.sk/s/?q=a" ⟨200, some "https://z-library.sk/s/?q=a"⟩) ∧
    ((400:Nat) ≤ 404 ∧
      MakeRequest ⟨"https://z-library.sk"⟩ "https://z-library.sk/s/?q=a"
        (some ⟨404, some "https://z-library.sk/err"⟩) = ⟨"https://z-library.sk"⟩) :=
  ⟨⟨by decide, (makeRequest_referrer_update ⟨"https://z-library.sk"⟩
      "https://z-library.sk/s/?q=a" ⟨200, some "https://z-library.sk/s/?q=a"⟩).1 (by decide)⟩,
    ⟨by decide, (makeRequest_referrer_update ⟨"https://z-library.sk"⟩
      "https://z-library.sk/s/?q=a" ⟨404, some "https://z-library.sk/err"⟩).2 (by decide)⟩⟩

/-- C1: on a `BookDetails` reaching the final checks with no primary
download URL and a non-empty alternates list, the first alternate is
promoted to primary (its URL becomes `DownloadURL`, its format becomes
`FileFormat` when that was absent, and it is removed from the alternates)
unless its URL is the conversion sentinel, in which case nothing changes.
The hypotheses `f.URL ≠ ""` and `f.Format ≠ ""` record how the extraction
passes build `OtherFormats`: an entry is only appended with a non-empty
format string and with either a resolved (non-empty) URL or the sentinel
(ui_helpers.go lines 988-1035). -/
theorem inferFormat_keeps_DownloadURL (d : BookDetails) :
    (inferFormatFromURL d).DownloadURL = d.DownloadURL := by
  simp only [inferFormatFromURL]
  repeat' split
  all_goals rfl

theorem inferFormat_keeps_OtherFormats (d : BookDetails) :
    (inferFormatFromURL d).OtherFormats = d.OtherFormats := by
  simp only [inferFormatFromURL]
  repeat' split
  all_goals rfl

theorem inferFormat_of_format_set (d : BookDetails) (x : String)
    (h : d.FileFormat = some x) (hx : x ≠ "") : inferFormatFromURL d = d := by
  have hno : ¬(d.FileFormat = none ∨ d.FileFormat = some "") := by
    simp [h, hx]
  simp only [inferFormatFromURL]
  repeat' split
  all_goals rfl

theorem detail_promote_first_alternate (d : BookDetails) (f : DownloadFormat)
    (rest : List DownloadFormat) (hURL : d.DownloadURL = none)
    (hOF : d.OtherFormats = f :: rest) (hu : f.URL ≠ "") (hf : f.Format ≠ "") :
    (f.URL ≠ "CONVERSION_NEEDED" →
      (GetBookDetailsFinalChecks d).DownloadURL = some f.URL ∧
      (d.FileFormat = none → (GetBookDetailsFinalChecks d).FileFormat = some f.Format) ∧
      (GetBookDetailsFinalChecks d).OtherFormats = rest) ∧
    (f.URL = "CONVERSION_NEEDED" →
      (GetBookDetailsFinalChecks d).DownloadURL = none ∧
      (GetBookDetailsFinalChecks d).OtherFormats = d.OtherFormats) := by
  constructor
  · intro hsent
    have hps : PtrStr f.URL = some f.URL := by simp [PtrStr, hu]
    have hpf : PtrStr f.Format = some f.Format := by simp [PtrStr, hf]
    have hpromo : promoteFirstAlternate d =
        { d with DownloadURL := PtrStr f.URL,
                 FileFormat :=
                   if d.FileFormat = none then PtrStr f.Format else d.FileFormat,
                 OtherFormats := rest } := by
      unfold promoteFirstAlternate
      rw [hURL, hOF]
      simp [hsent]
    refine ⟨?_, ?_, ?_⟩
    · rw [GetBookDetailsFinalChecks, inferFormat_keeps_DownloadURL, hpromo, hps]
    · intro hff
      have hset : (promoteFirstAlternate d).FileFormat = some f.Format := by
        rw [hpromo]
        simp [hff, hpf]
      rw [GetBookDetailsFinalChecks,
        inferFormat_of_format_set (promoteFirstAlternate d) f.Format hset hf, hset]
    · rw [GetBookDetailsFinalChecks, inferFormat_keeps_OtherFormats, hpromo]
  · intro hsent
    have hpromo : promoteFirstAlternate d = d := by
      unfold promoteFirstAlternate
      rw [hURL, hOF]
      simp [hsent]
    rw [GetBookDetailsFinalChecks, hpromo, inferFormat_keeps_DownloadURL,
      inferFormat_keeps_OtherFormats]
    exact ⟨hURL, rfl⟩

/-- Witness for C1: a record with one direct alternate and one with a
conversion-sentinel alternate. -/
theorem detail_promote_first_alternate_witness :
    (({ URL := "https://z-library.sk/book/1/x" } : BookDetails).DownloadURL = none ∧
      ({ URL := "https://z-library.sk/book/1/x",
         OtherFormats := [⟨"epub", "https://z-library.sk/dl/1"⟩] } : BookDetails).OtherFormats =
        [⟨"epub", "https://z-library.sk/dl/1"⟩] ∧
      ("https://z-library.sk/dl/1" : String) ≠ "" ∧ ("epub" : String) ≠ "") ∧
    ((GetBookDetailsFinalChecks
        { URL := "https://z-library.sk/book/1/x",
          OtherFormats := [⟨"epub", "https://z-library.sk/dl/1"⟩] }).DownloadURL =
      some "https://z-library.sk/dl/1" ∧
      (GetBookDetailsFinalChecks
        { URL := "https://z-library.sk/book/1/x",
          OtherFormats := [⟨"epub", "https://z-library.sk/dl/1"⟩] }).FileFormat = some "epub" ∧
      (GetBookDetailsFinalChecks
        { URL := "https://z-library.sk/book/1/x",
          OtherFormats := [⟨"epub", "https://z-library.sk/dl/1"⟩] }).OtherFormats = []) ∧
    ((GetBookDetailsFinalChecks
        { URL := "https://z-library.sk/book/1/x",
          OtherFormats := [⟨"pdf", "CONVERSION_NEEDED"⟩] }).DownloadURL = none ∧
      (GetBookDetailsFinalChecks
        { URL := "https://z-library.sk/book/1/x",
          OtherFormats := [⟨"pdf", "CONVERSION_NEEDED"⟩] }).OtherFormats =
        [⟨"pdf", "CONVERSION_NEEDED"⟩]) := by
  refine ⟨by decide, ?_, ?_⟩
  · have h := (detail_promote_first_alternate
      { URL := "https://z-library.sk/book/1/x",
        OtherFormats := [⟨"epub", "https://z-library.sk/dl/1"⟩] }
      ⟨"epub", "https://z-library.sk/dl/1"⟩ [] (by decide) (by decide) (by decide)
      (by decide)).1 (by decide)
    exact ⟨h.1, h.2.1 (by decide), h.2.2⟩
  · have h := (detail_promote_first_alternate
      { URL := "https://z-library.sk/book/1/x",
        OtherFormats := [⟨"pdf", "CONVERSION_NEEDED"⟩] }
      ⟨"pdf", "CONVERSION_NEEDED"⟩ [] (by decide) (by decide) (by decide)
      (by decide)).2 (by decide)
    exact ⟨h.1, by simpa using h.2⟩

/-- A `BookDetails` state reaching the final checks with a primary download
URL whose path carries no file extension and no format found anywhere: the
primary download button pointed at `/dl/12345` and neither the properties
pass nor the button text nor its child span yielded a format
(ui_helpers.go lines 946-982 leave `FileFormat` nil in that case). -/
def noExtDetails : BookDetails :=
  { URL := "https://z-library.sk/book/12345/abcdef",
    DownloadURL := some "https://z-library.sk/dl/12345" }

/-- Counterexample to C2: after the final checks this record still has a
primary download URL that is set and is not the conversion sentinel, yet
`FileFormat` is absent — the URL extension (empty here) is not of plausible
length, so the last-resort inference does not fire and the format is NOT
always populated. -/
theorem detail_format_not_always_populated :
    (GetBookDetailsFinalChecks noExtDetails).DownloadURL =
      some "https://z-library.sk/dl/12345" ∧
    ("https://z-library.sk/dl/12345" : String) ≠ "CONVERSION_NEEDED" ∧
    (GetBookDetailsFinalChecks noExtDetails).FileFormat = none := by decide

/-- C2 as amended: with a primary download URL set, non-empty and not the
conversion sentinel, and the format still unknown, the format is inferred
from the URL extension exactly when that extension (final-dot suffix of the
path, dot stripped) has length strictly between 1 and 6; otherwise
`FileFormat` is left as it was (possibly absent). -/
theorem detail_format_from_extension (d : BookDetails) (u p : String)
    (hd : d.DownloadURL = some u) (hu : u ≠ "") (hs : u ≠ "CONVERSION_NEEDED")
    (hf : d.FileFormat = none ∨ d.FileFormat = some "")
    (hp : goURLPath u = some p) :
    (1 < (trimDot (filepathExt p)).length ∧ (trimDot (filepathExt p)).length < 6 →
      (GetBookDetailsFinalChecks d).FileFormat = some (trimDot (filepathExt p))) ∧
    (¬(1 < (trimDot (filepathExt p)).length ∧ (trimDot (filepathExt p)).length < 6) →
      (GetBookDetailsFinalChecks d).FileFormat = d.FileFormat) := by
  have hpromo : promoteFirstAlternate d = d := by
    unfold promoteFirstAlternate
    rw [hd]
  have hcond : u ≠ "" ∧ u ≠ "CONVERSION_NEEDED" := ⟨hu, hs⟩
  rw [GetBookDetailsFinalChecks, hpromo]
  simp only [inferFormatFromURL, hd, hp]
  rw [if_pos hcond, if_pos hf]
  constructor
  · intro hlen
    have hne : trimDot (filepathExt p) ≠ "" := by
      intro h
      rw [h] at hlen
      simp at hlen
    simp [hlen, PtrStr, hne]
  · intro hlen
    simp [hlen]

/-- Witness for the amended C2: a download URL ending in `.epub` gets
`FileFormat` populated with `epub`. -/
theorem detail_format_from_extension_witness :
    (({ URL := "https://z-library.sk/book/7/y",
        DownloadURL := some "https://z-library.sk/dl/book.epub" } : BookDetails).DownloadURL =
      some "https://z-library.sk/dl/book.epub" ∧
      goURLPath "https://z-library.sk/dl/book.epub" = some "/dl/book.epub" ∧
      trimDot (filepathExt "/dl/book.epub") = "epub") ∧
    (GetBookDetailsFinalChecks
      { URL := "https://z-library.sk/book/7/y",
        DownloadURL := some "https://z-library.sk/dl/book.epub" }).FileFormat = some "epub" := by
  refine ⟨by decide, ?_⟩
  have h := (detail_format_from_extension
    { URL := "https://z-library.sk/book/7/y",
      DownloadURL := some "https://z-library.sk/dl/book.epub" }
    "https://z-library.sk/dl/book.epub" "/dl/book.epub" (by decide) (by decide)
    (by decide) (Or.inl (by decide)) (by decide)).1 (by decide)
  simpa using h

/-- Counterexample to C3: the guard in `SearchZLibrary` compares the query
against the empty string without trimming (ui_helpers.go line 564), so a
whitespace-only query — blank after trimming — is NOT rejected: it issues an
HTTP request for it, and the error produced (here a transport failure) is
not the empty-query error. The GUI caller trims before calling, but the
function itself does not. -/
theorem search_blank_query_not_rejected :
    trimSpace "   " = "" ∧
    (SearchZLibrary "   " urlParseOK fetchFail resolveConcat).requests ≠ [] ∧
    (SearchZLibrary "   " urlParseOK fetchFail resolveConcat).error ≠
      some "search query cannot be empty" := by decide

/-- C3 as amended: only the exactly-empty query string is rejected:
`SearchZLibrary ""` fails with the empty-query error, returns zero results
and issues no HTTP request (regardless of the network environment). -/
theorem search_empty_query_rejected (urlp : String → Except String String)
    (fetch : String → Except String SearchResponse)
    (resolve : String → String → Except String String) :
    SearchZLibrary "" urlp fetch resolve =
      ⟨[], "", some "search query cannot be empty", []⟩ := rfl

/-- Counterexample to C4: for the input `" a"` the single issued GET
carries `q=+a`, the URL-encoding of the *untrimmed* input, which differs
from the URL that the claim (encoding of the trimmed input `"a"`) would
produce. -/
theorem search_query_not_trimmed :
    (SearchZLibrary " a" urlParseOK fetchFail resolveConcat).requests =
      ["https://z-library.sk/s/?q=+a"] ∧
    queryEscape (trimSpace " a") = "a" ∧
    ("https://z-library.sk/s/?q=+a" : String) ≠ "https://z-library.sk/s/?q=a" := by decide

/-- C4 as amended: for every non-empty query (and a base URL that parses,
which the constant base always does), `SearchZLibrary` issues exactly one
GET request, whose URL is the search endpoint with the query parameter set
to the URL-encoding of the input exactly as given (not trimmed). -/
theorem search_one_get_encoded_query (q b : String)
    (urlp : String → Except String String)
    (fetch : String → Except String SearchResponse)
    (resolve : String → String → Except String String)
    (hq : q ≠ "") (hb : urlp BaseURL = Except.ok b) :
    (SearchZLibrary q urlp fetch resolve).requests = [buildSearchURL q] ∧
    buildSearchURL q = BaseURL ++ SearchPath ++ "?q=" ++ queryEscape q := by
  constructor
  · unfold SearchZLibrary
    rw [if_neg hq, hb]
    cases hfe : fetch (buildSearchURL q) with
    | error e => simp [hfe]
    | ok resp =>
      by_cases hst : resp.StatusCode = 200
      · cases hcards : resp.cards <;> simp [hfe, hst, hcards]
      · simp [hfe, hst]
  · have h1 : ("?" : String) ++ "q=" = "?q=" := rfl
    show BaseURL ++ SearchPath ++ "?" ++ ("q=" ++ queryEscape q) = _
    rw [← String.append_assoc, String.append_assoc (BaseURL ++ SearchPath) "?" "q=", h1]

/-- Witness for the amended C4 at the query `"a b"`: one GET, with the
space encoded as `+`. -/
theorem search_one_get_encoded_query_witness :
    (("a b" : String) ≠ "" ∧ urlParseOK BaseURL = Except.ok BaseURL) ∧
    ((SearchZLibrary "a b" urlParseOK fetchFail resolveConcat).requests =
      [buildSearchURL "a b"] ∧
      buildSearchURL "a b" = BaseURL ++ SearchPath ++ "?q=" ++ queryEscape "a b") ∧
    buildSearchURL "a b" = "https://z-library.sk/s/?q=a+b" :=
  ⟨⟨by decide, rfl⟩,
    search_one_get_encoded_query "a b" BaseURL urlParseOK fetchFail resolveConcat
      (by decide) rfl, by decide⟩

/-- A 501-character response body, one byte longer than the 500-character
snippet bound the detail fetcher applies to its own non-200 errors
(ui_helpers.go lines 735-739). -/
def longBody : String := String.mk (List.replicate 501 'a')

/-- The search-page fetch outcome used by the C9 counterexample: status 503
with the long body. -/
def fetchNon200 : String → Except String SearchResponse :=
  fun _ => .ok ⟨503, "503 Service Unavailable", none, longBody, .ok []⟩

set_option maxRecDepth 4000 in
/-- Counterexample to C9: on a non-200 search response the error embeds the
response body in full — here all 501 characters, beyond any 500-character
snippet bound — because `SearchZLibrary` formats `string(bodyBytes)`
unbounded (ui_helpers.go line 609), unlike the detail fetcher which cuts
its snippet at 500 characters. -/
theorem search_error_embeds_full_body :
    (SearchZLibrary "q" urlParseOK fetchNon200 resolveConcat).error =
      some ("search failed with status 503 Service Unavailable\nURL: " ++
        "https://z-library.sk/s/?q=q" ++ "\nResponse: " ++ longBody) ∧
    500 < longBody.length := by decide

/-- C9 as amended: a non-200 search response yields zero results and an
error carrying the status text, the resolved final URL and the FULL
response body (unbounded, not a snippet). -/
theorem search_non200_error_contents (q b : String)
    (urlp : String → Except String String)
    (fetch : String → Except String SearchResponse)
    (resolve : String → String → Except String String) (resp : SearchResponse)
    (hq : q ≠ "") (hb : urlp BaseURL = Except.ok b)
    (hfe : fetch (buildSearchURL q) = Except.ok resp) (hst : resp.StatusCode ≠ 200) :
    (SearchZLibrary q urlp fetch resolve).results = [] ∧
    (SearchZLibrary q urlp fetch resolve).finalURL =
      resp.requestURL.getD (buildSearchURL q) ∧
    (SearchZLibrary q urlp fetch resolve).error =
      some ("search failed with status " ++ resp.Status ++ "\nURL: " ++
        resp.requestURL.getD (buildSearchURL q) ++ "\nResponse: " ++ resp.body) := by
  unfold SearchZLibrary
  rw [if_neg hq, hb]
  simp [hfe, hst]

/-- Witness for the amended C9 at a concrete 503 response. -/
theorem search_non200_error_contents_witness :
    (("q" : String) ≠ "" ∧ urlParseOK BaseURL = Except.ok BaseURL ∧
      fetchNon200 (buildSearchURL "q") =
        Except.ok ⟨503, "503 Service Unavailable", none, longBody, .ok []⟩ ∧
      (503 : Nat) ≠ 200) ∧
    ((SearchZLibrary "q" urlParseOK fetchNon200 resolveConcat).results = [] ∧
      (SearchZLibrary "q" urlParseOK fetchNon200 resolveConcat).finalURL =
        (none : Option String).getD (buildSearchURL "q") ∧
      (SearchZLibrary "q" urlParseOK fetchNon200 resolveConcat).error =
        some ("search failed with status " ++ "503 Service Unavailable" ++ "\nURL: " ++
          (none : Option String).getD (buildSearchURL "q") ++ "\nResponse: " ++ longBody)) :=
  ⟨⟨by decide, rfl, rfl, by decide⟩,
    search_non200_error_contents "q" BaseURL urlParseOK fetchNon200 resolveConcat
      ⟨503, "503 Service Unavailable", none, longBody, .ok []⟩ (by decide) rfl rfl
      (by decide)⟩

/-- C7: whenever the download request itself failed, or the response has an
HTML content type, or its status is not 200, the downloader emits exactly
one event — a terminal error event whose message contains the resolved URL —
and never creates the destination file (creation only happens after all
three checks pass, ui_handlers.go lines 238-291). -/
theorem download_rejected_no_file (u fp : String) (fr : FetchResult)
    (cr : Except String Unit) (mask : List Bool)
    (h : (∃ e, fr = .fail e) ∨
      (∃ r, fr = .ok r ∧
        (containsSub (lowerStr r.ContentType) "text/html" = true ∨ r.StatusCode ≠ 200))) :
    (startActualDownload u fp fr cr mask).2.1 = false ∧
    ∃ m pre post, (startActualDownload u fp fr cr mask).1 = [⟨0, 0, some m⟩] ∧
      m = pre ++ dlFinalURL u fr ++ post := by
  rcases h with ⟨e, rfl⟩ | ⟨r, rfl, hcase⟩
  · refine ⟨rfl, "download request failed for " ++ u ++ ": " ++ e,
      "download request failed for ", ": " ++ e, rfl, ?_⟩
    rw [String.append_assoc]
    rfl
  · cases hhtml : containsSub (lowerStr r.ContentType) "text/html" with
    | true =>
      refine ⟨?_, ?_⟩
      · simp [startActualDownload, hhtml]
      · refine ⟨"download failed: Received an HTML page (URL: " ++
          (r.requestURL.getD u) ++ "). Login/Captcha/Limit likely required.",
          "download failed: Received an HTML page (URL: ",
          "). Login/Captcha/Limit likely required.", ?_, rfl⟩
        simp [startActualDownload, hhtml, dlFinalURL]
    | false =>
      have hst : r.StatusCode ≠ 200 := by
        rcases hcase with hcase | hcase
        · rw [hhtml] at hcase
          exact absurd hcase (by decide)
        · exact hcase
      refine ⟨?_, ?_⟩
      · simp [startActualDownload, hhtml, hst]
      · refine ⟨"download failed with status " ++ r.Status ++ " (URL: " ++
          (r.requestURL.getD u) ++ "): " ++ r.body,
          "download failed with status " ++ r.Status ++ " (URL: ",
          "): " ++ r.body, ?_, ?_⟩
        · simp [startActualDownload, hhtml, hst, dlFinalURL]
        · rw [String.append_assoc]
          rfl

/-- A download response carrying `Content-Type: text/html`, as served by a
login/CAPTCHA/limit interstitial. -/
def htmlInterstitial : DLResponse :=
  ⟨200, "200 OK", some "https://z-library.sk/login", "text/html; charset=utf-8", 0,
    [], none, "<html>login</html>"⟩

/-- Witness for C7 at a response whose content type indicates HTML. -/
theorem download_rejected_no_file_witness :
    ((∃ e, FetchResult.ok htmlInterstitial = .fail e) ∨
      (∃ r, FetchResult.ok htmlInterstitial = .ok r ∧
        (containsSub (lowerStr r.ContentType) "text/html" = true ∨ r.StatusCode ≠ 200))) ∧
    ((startActualDownload "https://z-library.sk/dl/9" "/books/x.epub"
        (.ok htmlInterstitial) (.ok ()) []).2.1 = false ∧
      ∃ m pre post, (startActualDownload "https://z-library.sk/dl/9" "/books/x.epub"
        (.ok htmlInterstitial) (.ok ()) []).1 = [⟨0, 0, some m⟩] ∧
        m = pre ++ dlFinalURL "https://z-library.sk/dl/9" (.ok htmlInterstitial) ++ post) :=
  ⟨Or.inr ⟨htmlInterstitial, rfl, Or.inl (by decide)⟩,
    download_rejected_no_file "https://z-library.sk/dl/9" "/books/x.epub"
      (.ok htmlInterstitial) (.ok ()) []
      (Or.inr ⟨htmlInterstitial, rfl, Or.inl (by decide)⟩)⟩

/-- Helper: the cumulative byte count `runCopy` reaches is the starting
count plus the bytes of the processed chunk writes. -/
theorem runCopy_current (total : Int) (chunks : List (Nat × Option String)) :
    ∀ (cur : Int) (mask : List Bool),
      (runCopy total cur mask chunks).1 = cur + writtenCount chunks := by
  induction chunks with
  | nil =>
    intro cur mask
    simp [runCopy, writtenCount]
  | cons c rest ih =>
    intro cur mask
    obtain ⟨n, werr⟩ := c
    cases werr with
    | some e => simp [runCopy, writtenCount]
    | none => simp [runCopy, writtenCount, ih, add_assoc]

/-- C8: for an accepted download (no HTML content type, status 200, file
created), a copy failing mid-stream — a write error or a read error after
the successful writes — leads to: the destination file was created and its
removal attempted, and the event stream is the initial event, the
intermediate copy events, and ONE final terminal event carrying the
interruption error and the byte count reached, after which the channel is
closed (the terminal event is the last element). On a clean copy the final
event carries no error and no removal is attempted. In both cases the byte
count of the final event is exactly the number of bytes written. -/
theorem download_midcopy_cleanup (u fp : String) (r : DLResponse) (mask : List Bool)
    (hhtml : containsSub (lowerStr r.ContentType) "text/html" = false)
    (hst : r.StatusCode = 200) :
    ((∀ e, ((runCopy (dlTotalSize r) 0 mask r.chunks).2.1 = some e ∨
        ((runCopy (dlTotalSize r) 0 mask r.chunks).2.1 = none ∧ r.readErr = some e)) →
      startActualDownload u fp (.ok r) (.ok ()) mask =
        (⟨0, dlTotalSize r, none⟩ :: (runCopy (dlTotalSize r) 0 mask r.chunks).2.2 ++
          [⟨(runCopy (dlTotalSize r) 0 mask r.chunks).1, dlTotalSize r,
            some ("download interrupted: " ++ e)⟩], true, true)) ∧
      ((runCopy (dlTotalSize r) 0 mask r.chunks).2.1 = none ∧ r.readErr = none →
      startActualDownload u fp (.ok r) (.ok ()) mask =
        (⟨0, dlTotalSize r, none⟩ :: (runCopy (dlTotalSize r) 0 mask r.chunks).2.2 ++
          [⟨(runCopy (dlTotalSize r) 0 mask r.chunks).1, dlTotalSize r, none⟩],
          true, false))) ∧
    (runCopy (dlTotalSize r) 0 mask r.chunks).1 = writtenCount r.chunks := by
  have hred : startActualDownload u fp (.ok r) (.ok ()) mask =
      (let rc := runCopy (dlTotalSize r) 0 mask r.chunks
       let copyErr := match rc.2.1 with | some e => some e | none => r.readErr
       match copyErr with
       | some e =>
         (⟨0, dlTotalSize r, none⟩ :: rc.2.2 ++
           [⟨rc.1, dlTotalSize r, some ("download interrupted: " ++ e)⟩], true, true)
       | none =>
         (⟨0, dlTotalSize r, none⟩ :: rc.2.2 ++ [⟨rc.1, dlTotalSize r, none⟩],
           true, false)) := by
    simp only [startActualDownload, hhtml, hst, Bool.false_eq_true, if_false, ne_eq,
      not_true_eq_false]
  refine ⟨⟨?_, ?_⟩, by simpa using runCopy_current (dlTotalSize r) r.chunks 0 mask⟩
  · intro e he
    rw [hred]
    rcases he with he | ⟨he, hre⟩
    · simp only [he]
    · simp only [he, hre]
  · intro ⟨he, hre⟩
    rw [hred]
    simp only [he, hre]

/-- A 200 response with a proper binary content type whose body is
truncated: one 5-byte chunk is delivered, then the read fails. -/
def dlRespTrunc : DLResponse :=
  ⟨200, "200 OK", some "https://z-library.sk/dl/1", "application/epub+zip", 100,
    [(5, none)], some "unexpected EOF", ""⟩

/-- Witness for C8: the truncated download yields the initial event, one
chunk event, then the terminal error event with the 5 bytes reached; the
file was created and removed. -/
theorem download_midcopy_cleanup_witness :
    (containsSub (lowerStr "application/epub+zip") "text/html" = false ∧
      (200 : Nat) = 200) ∧
    startActualDownload "https://z-library.sk/dl/1" "/books/b.epub" (.ok dlRespTrunc)
        (.ok ()) [true] =
      ([⟨0, 100, none⟩, ⟨5, 100, none⟩,
        ⟨5, 100, some ("download interrupted: " ++ "unexpected EOF")⟩], true, true) := by
  refine ⟨⟨by decide, rfl⟩, ?_⟩
  have h := (download_midcopy_cleanup "https://z-library.sk/dl/1" "/books/b.epub"
    dlRespTrunc [true] (by decide) rfl).1.1 "unexpected EOF" (Or.inr ⟨by decide, rfl⟩)
  rw [h]
  decide

/-- Helper: `parseCards` is the filterMap of the per-card results and the
flatMap of the per-card soft errors over the indexed card list. -/
theorem parseCards_eq (f : String) (bE : Except String String)
    (res : String → String → Except String String) :
    ∀ (i : Nat) (cs : List CardModel),
      parseCards f bE res i cs =
        ((cs.enumFrom i).filterMap (fun p => (parseCard f bE res p.1 p.2).1),
         (cs.enumFrom i).flatMap (fun p => (parseCard f bE res p.1 p.2).2)) := by
  intro i cs
  induction cs generalizing i with
  | nil => simp [parseCards]
  | cons c rest ih =>
    simp only [parseCards, ih, List.enumFrom, List.filterMap_cons, List.flatMap_cons]
    cases hr : (parseCard f bE res i c).1 <;> simp [hr]

/-- Helper: with a base URL that parsed, every card either yields a result
and no soft error, or no result and exactly one soft error. -/
theorem parseCard_ok_cases (f b : String)
    (res : String → String → Except String String) (i : Nat) (c : CardModel) :
    ((parseCard f (.ok b) res i c).1 = none ∧
      ∃ e, (parseCard f (.ok b) res i c).2 = [e]) ∨
    (∃ r, (parseCard f (.ok b) res i c).1 = some r ∧
      (parseCard f (.ok b) res i c).2 = []) := by
  simp only [parseCard, baseErrList, baseStrOf]
  repeat' split
  all_goals simp

/-- Helper: with a base URL that parsed, the number of soft errors over an
indexed card list equals the number of cards whose extraction yielded no
result. -/
theorem parseErrs_length (f b : String)
    (res : String → String → Except String String) :
    ∀ l : List (Nat × CardModel),
      (l.flatMap (fun p => (parseCard f (.ok b) res p.1 p.2).2)).length =
      (l.filter (fun p => ((parseCard f (.ok b) res p.1 p.2).1).isNone)).length := by
  intro l
  induction l with
  | nil => simp
  | cons p rest ih =>
    rcases parseCard_ok_cases f b res p.1 p.2 with ⟨h1, e, h2⟩ | ⟨r, h1, h2⟩ <;>
      simp [h1, h2, ih]

/-- Helper: the length of a filterMap is the number of elements the function
accepts. -/
theorem length_filterMap_eq {α β : Type} (g : α → Option β) :
    ∀ l : List α,
      (l.filterMap g).length = (l.filter (fun a => (g a).isSome)).length := by
  intro l
  induction l with
  | nil => simp
  | cons a rest ih =>
    cases hg : g a <;> simp [hg, ih]

/-- Helper: the aggregate search error is nil exactly when no soft parse
error was recorded. -/
theorem searchAggError_none_iff (errs : List String) :
    searchAggError errs = none ↔ errs = [] := by
  by_cases h : errs = [] <;> simp [searchAggError, h]

/-- C5: on a 200 results page whose HTML parses into a card list (and whose
final URL parses as a base), `SearchZLibrary` returns exactly the
successfully parsed results in page order — their number being the count N
of well-formed cards — and the error is nil exactly when the count M of
malformed cards is zero; when M is non-zero the error states M and joins the
per-card soft error messages, so callers get the partial results alongside
the aggregate error. -/
theorem search_partial_results_aggregate (q b0 b : String)
    (urlp : String → Except String String)
    (fetch : String → Except String SearchResponse)
    (res : String → String → Except String String) (resp : SearchResponse)
    (cards : List CardModel)
    (hq : q ≠ "") (hb0 : urlp BaseURL = Except.ok b0)
    (hfe : fetch (buildSearchURL q) = Except.ok resp) (hst : resp.StatusCode = 200)
    (hcards : resp.cards = Except.ok cards)
    (hb : urlp (resp.requestURL.getD (buildSearchURL q)) = Except.ok b) :
    (SearchZLibrary q urlp fetch res).results =
      (cards.enumFrom 0).filterMap
        (fun p => (parseCard (resp.requestURL.getD (buildSearchURL q)) (.ok b) res
          p.1 p.2).1) ∧
    (SearchZLibrary q urlp fetch res).results.length =
      ((cards.enumFrom 0).filter
        (fun p => ((parseCard (resp.requestURL.getD (buildSearchURL q)) (.ok b) res
          p.1 p.2).1).isSome)).length ∧
    ((SearchZLibrary q urlp fetch res).error = none ↔
      ((cards.enumFrom 0).filter
        (fun p => ((parseCard (resp.requestURL.getD (buildSearchURL q)) (.ok b) res
          p.1 p.2).1).isNone)).length = 0) ∧
    (((cards.enumFrom 0).filter
        (fun p => ((parseCard (resp.requestURL.getD (buildSearchURL q)) (.ok b) res
          p.1 p.2).1).isNone)).length ≠ 0 →
      (SearchZLibrary q urlp fetch res).error =
        some ("encountered " ++
          toString ((cards.enumFrom 0).filter
            (fun p => ((parseCard (resp.requestURL.getD (buildSearchURL q)) (.ok b) res
              p.1 p.2).1).isNone)).length ++
          " errors during result parsing:\n- " ++ String.intercalate "\n- "
          ((cards.enumFrom 0).flatMap
            (fun p => (parseCard (resp.requestURL.getD (buildSearchURL q)) (.ok b) res
              p.1 p.2).2)))) := by
  have hout : SearchZLibrary q urlp fetch res =
      ⟨((cards.enumFrom 0).filterMap
          (fun p => (parseCard (resp.requestURL.getD (buildSearchURL q)) (.ok b) res
            p.1 p.2).1)),
        resp.requestURL.getD (buildSearchURL q),
        searchAggError ((cards.enumFrom 0).flatMap
          (fun p => (parseCard (resp.requestURL.getD (buildSearchURL q)) (.ok b) res
            p.1 p.2).2)),
        [buildSearchURL q]⟩ := by
    unfold SearchZLibrary
    rw [if_neg hq, hb0]
    simp only [hfe, hst, hcards, hb, ne_eq, not_true_eq_false, if_false,
      reduceCtorEq, reduceIte]
    rw [parseCards_eq]
  rw [hout]
  refine ⟨rfl, length_filterMap_eq _ _, ?_, ?_⟩
  · rw [searchAggError_none_iff, ← parseErrs_length _ _ res, List.length_eq_zero]
  · intro hM
    rw [← parseErrs_length _ _ res] at hM
    have hne : ((cards.enumFrom 0).flatMap
        (fun p => (parseCard (resp.requestURL.getD (buildSearchURL q)) (.ok b) res
          p.1 p.2).2)) ≠ [] := by
      intro hcon
      rw [hcon] at hM
      simp at hM
    simp only [searchAggError, if_neg hne, parseErrs_length _ _ res]

/-- A well-formed result card: a `z-bookcard` with href, id and title slot. -/
def goodCard : CardModel := ⟨some ⟨some "/book/1/x", "123", some " The Title "⟩, none⟩

/-- A malformed result card: neither a `z-bookcard` nor a direct title link. -/
def badCard : CardModel := ⟨none, none⟩

/-- A 200 search results page carrying one good and one malformed card. -/
def fetchCardsPage : String → Except String SearchResponse :=
  fun _ => .ok ⟨200, "200 OK", none, "", .ok [goodCard, badCard]⟩

/-- Witness for C5: on the concrete two-card page, search returns exactly
the one parsed result (in page order) and an aggregate error stating one
failure. -/
theorem search_partial_results_aggregate_witness :
    (("harry" : String) ≠ "" ∧
      urlParseOK BaseURL = Except.ok BaseURL ∧
      fetchCardsPage (buildSearchURL "harry") =
        Except.ok ⟨200, "200 OK", none, "", .ok [goodCard, badCard]⟩ ∧
      urlParseOK ((none : Option String).getD (buildSearchURL "harry")) =
        Except.ok (buildSearchURL "harry")) ∧
    (SearchZLibrary "harry" urlParseOK fetchCardsPage resolveConcat).results =
      [⟨"The Title", buildSearchURL "harry" ++ "/book/1/x", some "123"⟩] ∧
    (SearchZLibrary "harry" urlParseOK fetchCardsPage resolveConcat).error =
      some ("encountered 1 errors during result parsing:\n- " ++
        "Item 1: Skipping, could not find z-bookcard or direct title link.") := by
  have h := search_partial_results_aggregate "harry" BaseURL (buildSearchURL "harry")
    urlParseOK fetchCardsPage resolveConcat
    ⟨200, "200 OK", none, "", .ok [goodCard, badCard]⟩ [goodCard, badCard]
    (by decide) rfl rfl rfl rfl rfl
  refine ⟨⟨by decide, rfl, rfl, rfl⟩, ?_, ?_⟩
  · rw [h.1]
    decide
  · rw [h.2.2.2 (by decide)]
    decide

end Blackbook
